import Mathlib

/-!
Shallow embedding of the `suisei-entertainment/seed.core` process-lifecycle
controller (files `application.py`, `businesslogic.py`, `daemonapplication.py`,
`applicationaccessservice.py`), together with theorems settling the frozen
claims about its natural-language specification.

Python exceptions are modelled by the `PyError` type and fallible code by
`Except PyError`; the PID lock file is modelled as `Option String` (absent or
its textual content); OS effects (signals sent, sleeps, `sys.exit`, forks) are
recorded in explicit result records.
-/

/-- The Python exceptions that can arise in the modelled code paths.
`nameError n` is the `NameError` raised when an undefined module-level name
`n` is evaluated; `attributeError n` is the `AttributeError` raised when an
object has no attribute `n`; `osError e` carries the `errno` value;
`invalidInputError` stands for the `InvalidInputError` exception class the
source refers to (never importable in these modules); `exc t` is an arbitrary
application-level exception with tag `t`. -/
inductive PyError where
  | nameError (n : String)
  | attributeError (n : String)
  | valueError
  | osError (errno : Int)
  | runtimeError
  | invalidInputError
  | exc (tag : Nat)
deriving Repr, DecidableEq

/-- Linux errno value for "No such process". -/
def ESRCH : Int := 3

/-- Linux errno value for "No such file or directory". -/
def ENOENT : Int := 2

/-- Whitespace characters removed by Python `str.strip()` (ASCII subset;
the PID file only ever holds digits and a newline). -/
def pyIsSpace (c : Char) : Bool :=
  c == ' ' || c == '\t' || c == '\n' || c == '\r' || c == '\x0b' || c == '\x0c'

/-- Python `str.strip()` on the character list of a string. -/
def stripChars (l : List Char) : List Char :=
  ((l.dropWhile pyIsSpace).reverse.dropWhile pyIsSpace).reverse

/-- Python `str.strip()`. -/
def pyStrip (s : String) : String := ⟨stripChars s.data⟩

/-- Value of a list of decimal digits. -/
def digitsToNat (l : List Char) : Nat :=
  l.foldl (fun acc c => acc * 10 + (c.toNat - 48)) 0

/-- Python `int(s)` on an already-stripped string: an optional sign followed
by a nonempty run of decimal digits parses; everything else raises
`ValueError` (modelled as `none`).  Underscore digit grouping is omitted:
the daemon only ever writes `str(os.getpid())`, plain digits. -/
def pyIntCore (l : List Char) : Option Int :=
  match l with
  | [] => none
  | c :: rest =>
    if c == '-' then
      if rest ≠ [] && rest.all Char.isDigit then some (-(digitsToNat rest : Int)) else none
    else if c == '+' then
      if rest ≠ [] && rest.all Char.isDigit then some (digitsToNat rest : Int) else none
    else
      if (c :: rest).all Char.isDigit then some (digitsToNat (c :: rest) : Int) else none

/-- Python `int(s)` (on arbitrary strings, which `int` itself strips). -/
def pyInt (s : String) : Option Int := pyIntCore (pyStrip s).data

example : pyInt "42\n" = some 42 := by decide
example : pyInt "" = none := by decide
example : pyInt "abc" = none := by decide
example : pyInt "-5" = some (-5) := by decide

/-- `DaemonApplication.get_pid`: opens the PID file and parses
`int(read().strip())`.  A missing file raises `IOError`, which the
`except IOError` clause turns into `None`; `SystemExit` is also caught
(it cannot arise here); a `ValueError` from `int` on an existing but
empty/non-numeric file is NOT caught and propagates. -/
def get_pid (lock : Option String) : Except PyError (Option Int) :=
  match lock with
  | none => Except.ok none
  | some s =>
    match pyInt (pyStrip s) with
    | some n => Except.ok (some n)
    | none => Except.error PyError.valueError

/-- `DaemonApplication.delete_pid`: re-reads the PID from the file and removes
the file only when it equals `os.getpid()` of the caller.  `lock` is the file
content (`none` = file absent, so `open` raises `FileNotFoundError`, an
`OSError` with errno `ENOENT`, which the handler passes over); `removeErr`
injects an errno for the `os.remove` call (`none` = removal succeeds).
Returns the new file content, or the propagated exception; note the `int`
parse can raise `ValueError`, which `except OSError` does not catch. -/
def delete_pid (lock : Option String) (ownPid : Int) (removeErr : Option Int) :
    Except PyError (Option String) :=
  match lock with
  | none => Except.ok none
  | some s =>
    match pyInt (pyStrip s) with
    | none => Except.error PyError.valueError
    | some pid =>
      if pid = ownPid then
        match removeErr with
        | none => Except.ok none
        | some e => if e = ENOENT then Except.ok none else Except.error (PyError.osError e)
      else Except.ok (some s)

example : get_pid (some "42\n") = Except.ok (some 42) := rfl
example : get_pid none = Except.ok none := rfl
example : delete_pid (some "42\n") 42 none = Except.ok none := rfl
example : delete_pid (some "42\n") 7 none = Except.ok (some "42\n") := rfl

/-! ## `application.py`: module globals, the `Application` class, `excecute` -/

/-- `ApplicationReturnCodes.SUCCESS` from `application.py`. -/
def ApplicationReturnCodes.SUCCESS : Int := 200

/-- `ApplicationReturnCodes.UNCAUGHT_EXCEPTION` from `application.py`. -/
def ApplicationReturnCodes.UNCAUGHT_EXCEPTION : Int := 666

/-- The names bound at module level in `application.py` (its imports and its
own definitions).  `ConfigurationService` and `InvalidInputError`, both used
in the file, are NOT among them: no import statement binds them. -/
def applicationModuleGlobals : List String :=
  ["os", "logging", "IntEnum", "sentry_sdk", "ServiceLocator",
   "BusinessLogic", "ApplicationAccessService", "ApplicationReturnCodes",
   "Application"]

/-- The attribute names the `Application` class body defines (properties and
methods).  The directory validators exist only under the misspelled names
`_validate_service_diretory` and `_validate_config_diretory`. -/
def applicationClassMethods : List String :=
  ["BusinessLogic", "IsDebugMode", "IsSentryIOUsed", "ServiceDirectory",
   "ServicePackage", "ConfigDirectory", "DataDirectory", "excecute",
   "_validate_service_diretory", "_validate_service_package",
   "_validate_config_diretory", "_validate_data_directory"]

/-- Evaluating `raise InvalidInputError(...)`: the name is looked up in the
module globals; since it is absent, the statement raises `NameError`
instead of the intended exception. -/
def raiseInvalidInput : PyError :=
  if applicationModuleGlobals.contains "InvalidInputError" then
    PyError.invalidInputError
  else PyError.nameError "InvalidInputError"

/-- Evaluating the clause `except InvalidInputError: raise` while exception
`e` is in flight: the class expression is evaluated first; since the name is
absent from the module globals, a `NameError` replaces `e` (with `e` as its
context); had the name been bound, the clause would re-raise `e` on a match
and let `e` propagate otherwise, so the result would be `e` either way. -/
def exceptInvalidInputClause (e : PyError) : PyError :=
  if applicationModuleGlobals.contains "InvalidInputError" then e
  else PyError.nameError "InvalidInputError"

/-- Looking up attribute `n` on an `Application` instance
(`self.<n>`): `AttributeError` when the class does not define it. -/
def selfLookup (n : String) : Except PyError Unit :=
  if applicationClassMethods.contains n then Except.ok ()
  else Except.error (PyError.attributeError n)

/-- Body of `Application._validate_service_diretory` (the misspelled name it
is defined under); `isDir` abstracts `os.path.isdir` on the resolved path. -/
def validate_service_diretory (dir : String) (required : Bool) (isDir : Bool) :
    Except PyError Unit :=
  if required = false then Except.ok ()
  else if dir = "" then Except.error raiseInvalidInput
  else if isDir = false then Except.error raiseInvalidInput
  else Except.ok ()

/-- Body of `Application._validate_service_package`; `importable` abstracts
whether `__import__(service_package)` succeeds. -/
def validate_service_package (pkg : String) (required : Bool) (importable : Bool) :
    Except PyError Unit :=
  if required = false then Except.ok ()
  else if pkg = "" then Except.error raiseInvalidInput
  else if importable = false then Except.error raiseInvalidInput
  else Except.ok ()

/-- Body of `Application._validate_config_diretory` (misspelled name). -/
def validate_config_diretory (dir : String) (required : Bool) (isDir : Bool) :
    Except PyError Unit :=
  if required = false then Except.ok ()
  else if dir = "" then Except.error raiseInvalidInput
  else if isDir = false then Except.error raiseInvalidInput
  else Except.ok ()

/-- Body of `Application._validate_data_directory`. -/
def validate_data_directory (dir : String) (required : Bool) (isDir : Bool) :
    Except PyError Unit :=
  if required = false then Except.ok ()
  else if dir = "" then Except.error raiseInvalidInput
  else if isDir = false then Except.error raiseInvalidInput
  else Except.ok ()

/-- The four validator calls inside the `try` of `Application.__init__`, in
source order.  Each call first looks the method name up on `self`; the class
defines the service/config directory validators only under misspelled names,
so those lookups raise `AttributeError` before any body can run (the body
that was evidently intended is chained after the lookup). -/
def initValidation (sd sp cd dd : String) (sdReq cdReq ddReq : Bool)
    (sdIsDir pkgImportable cdIsDir ddIsDir : Bool) : Except PyError Unit := do
  _ ← selfLookup "_validate_service_directory"
  _ ← validate_service_diretory sd sdReq sdIsDir
  _ ← selfLookup "_validate_service_package"
  _ ← validate_service_package sp sdReq pkgImportable
  _ ← selfLookup "_validate_config_directory"
  _ ← validate_config_diretory cd cdReq cdIsDir
  _ ← selfLookup "_validate_data_directory"
  validate_data_directory dd ddReq ddIsDir

/-- Observable outcome of `Application.__init__`. -/
structure InitResult where
  raised : Option PyError
  constructed : Bool
  set_application_called : Bool
deriving Repr, DecidableEq

/-- `Application.__init__`: rejects a missing business logic, validates the
four directory/package preconditions inside a `try` whose handler is
`except InvalidInputError: raise`, calls
`business_logic.initialize_services()` (`initServicesRaises` injects a
failure), then requires the application access service from the
`ServiceLocator` registry (`accessServicePresent`) and publishes itself
through `set_application`. -/
def Application.init (blProvided : Bool)
    (sd sp cd dd : String) (sdReq cdReq ddReq : Bool)
    (sdIsDir pkgImportable cdIsDir ddIsDir : Bool)
    (initServicesRaises : Option PyError)
    (accessServicePresent : Bool) : InitResult :=
  if blProvided = false then ⟨some raiseInvalidInput, false, false⟩
  else
    match initValidation sd sp cd dd sdReq cdReq ddReq
        sdIsDir pkgImportable cdIsDir ddIsDir with
    | Except.error e => ⟨some (exceptInvalidInputClause e), false, false⟩
    | Except.ok _ =>
      match initServicesRaises with
      | some e => ⟨some e, false, false⟩
      | none =>
        if accessServicePresent then ⟨none, true, true⟩
        else ⟨some PyError.runtimeError, false, false⟩

example :
    Application.init true "" "" "" "" false false false true true true true
      none true
      = ⟨some (PyError.nameError "InvalidInputError"), false, false⟩ := rfl

/-- Behaviour of one concrete `BusinessLogic` implementation: what each hook
does when called.  `Except.ok` is a normal return (`main_loop` returns an
exit code, the base class returns `SUCCESS`); `Except.error e` means the
hook raises `e`. -/
structure BLBehavior where
  before_main_loop : Except PyError Unit
  main_loop : Except PyError Int
  after_main_loop : Except PyError Unit
  on_uncaught_exception : PyError → Except PyError Unit

/-- The base `BusinessLogic` class of `businesslogic.py`: every hook is a
no-op and `main_loop` returns `SUCCESS`. -/
def baseBusinessLogic : BLBehavior :=
  ⟨Except.ok (), Except.ok ApplicationReturnCodes.SUCCESS, Except.ok (),
   fun _ => Except.ok ()⟩

/-- Observable trace of one `Application.excecute` call. -/
structure ExecTrace where
  beforeCalls : Nat
  mainCalls : Nat
  afterCalls : Nat
  uncaughtCalls : List PyError
  sentryCalls : List PyError
  result : Option Int
  raised : Option PyError
deriving Repr, DecidableEq

/-- The `except Exception` handler of `excecute`: forwards the error to
`business_logic.on_uncaught_exception` (whose own failure would propagate),
then to `sentry_sdk.capture_exception`, and sets the result to
`UNCAUGHT_EXCEPTION`. -/
def execCatch (bl : BLBehavior) (b m a : Nat) (e : PyError) : ExecTrace :=
  match bl.on_uncaught_exception e with
  | Except.error e2 => ⟨b, m, a, [e], [], none, some e2⟩
  | Except.ok _ =>
    ⟨b, m, a, [e], [e], some ApplicationReturnCodes.UNCAUGHT_EXCEPTION, none⟩

/-- The `try` block of `excecute`: `before_main_loop`, `main_loop`,
`after_main_loop` in order on one thread, any raise diverted to the
`except Exception` handler. -/
def execTryBlock (bl : BLBehavior) : ExecTrace :=
  match bl.before_main_loop with
  | Except.error e => execCatch bl 1 0 0 e
  | Except.ok _ =>
    match bl.main_loop with
    | Except.error e => execCatch bl 1 1 0 e
    | Except.ok r =>
      match bl.after_main_loop with
      | Except.error e => execCatch bl 1 1 1 e
      | Except.ok _ => ⟨1, 1, 1, [], [], some r, none⟩

/-- `Application.excecute`: first evaluates
`ServiceLocator.instance().get_provider(ConfigurationService)`.  Evaluating
the argument requires the module-level name `ConfigurationService`, which is
unbound, so a `NameError` is raised before the `try` block is reached.  Had
the name been bound, a present provider would `load()` the configuration
(`configLoadRaises` injecting a failure, outside the `try`), an absent one
would only be logged, and the `try` block would run. -/
def excecute (bl : BLBehavior) (configProviderPresent : Bool)
    (configLoadRaises : Option PyError) : ExecTrace :=
  if applicationModuleGlobals.contains "ConfigurationService" then
    if configProviderPresent then
      match configLoadRaises with
      | some e => ⟨0, 0, 0, [], [], none, some e⟩
      | none => execTryBlock bl
    else execTryBlock bl
  else ⟨0, 0, 0, [], [], none, some (PyError.nameError "ConfigurationService")⟩

example : excecute baseBusinessLogic true none
    = ⟨0, 0, 0, [], [], none, some (PyError.nameError "ConfigurationService")⟩ := rfl

/-! ## `businesslogic.py` and `daemonapplication.py`: signal dispatch -/

/-- The method names the `BusinessLogic` base class of `businesslogic.py`
defines.  The per-signal hooks are `on_sigterm`, `on_sigint`, `on_sigalrm`,
`on_sigusr1`, `on_sigusr2`. -/
def businessLogicMethods : List String :=
  ["main_loop", "before_main_loop", "after_main_loop", "initialize_services",
   "on_uncaught_exception", "on_sigterm", "on_sigint", "on_sigalrm",
   "on_sigusr1", "on_sigusr2"]

/-- Looking up attribute `n` on a `BusinessLogic` instance. -/
def blLookup (n : String) : Except PyError Unit :=
  if businessLogicMethods.contains n then Except.ok ()
  else Except.error (PyError.attributeError n)

/-- Observable outcome of one `DaemonApplication.handle_sig*` call:
which business-logic method actually ran, the `_alive` flag afterwards,
the `sys.exit` code if reached, and any propagating exception. -/
structure SigResult where
  blMethodCalled : Option String
  aliveAfter : Bool
  exit : Option Int
  raised : Option PyError
deriving Repr, DecidableEq

/-- `DaemonApplication.handle_sigterm`: calls
`self._business_logic.handle_sigterm(frame)` (an attribute lookup on the
business logic), then sets `self._alive = False` and calls `sys.exit(0)`.
If the lookup raises, the rest of the body never runs. -/
def handle_sigterm (alive : Bool) : SigResult :=
  match blLookup "handle_sigterm" with
  | Except.error e => ⟨none, alive, none, some e⟩
  | Except.ok _ => ⟨some "handle_sigterm", false, some 0, none⟩

/-- `DaemonApplication.handle_sigint`: same shape as `handle_sigterm`. -/
def handle_sigint (alive : Bool) : SigResult :=
  match blLookup "handle_sigint" with
  | Except.error e => ⟨none, alive, none, some e⟩
  | Except.ok _ => ⟨some "handle_sigint", false, some 0, none⟩

/-- `DaemonApplication.handle_sigalrm`: calls
`self._business_logic.handle_sigalrm(frame)` and returns. -/
def handle_sigalrm (alive : Bool) : SigResult :=
  match blLookup "handle_sigalrm" with
  | Except.error e => ⟨none, alive, none, some e⟩
  | Except.ok _ => ⟨some "handle_sigalrm", alive, none, none⟩

/-- `DaemonApplication.handle_sigusr1`. -/
def handle_sigusr1 (alive : Bool) : SigResult :=
  match blLookup "handle_sigusr1" with
  | Except.error e => ⟨none, alive, none, some e⟩
  | Except.ok _ => ⟨some "handle_sigusr1", alive, none, none⟩

/-- `DaemonApplication.handle_sigusr2`. -/
def handle_sigusr2 (alive : Bool) : SigResult :=
  match blLookup "handle_sigusr2" with
  | Except.error e => ⟨none, alive, none, some e⟩
  | Except.ok _ => ⟨some "handle_sigusr2", alive, none, none⟩

/-! ## `daemonapplication.py`: start, stop, is_running -/

/-- The method names the `DaemonApplication` class body defines (in addition
to the inherited `Application` attributes). -/
def daemonApplicationMethods : List String :=
  ["start", "stop", "restart", "get_pid", "get_status", "is_running",
   "delete_pid", "handle_sigterm", "handle_sigint", "handle_sigalrm",
   "handle_sigusr1", "handle_sigusr2", "_daemonize"]

/-- Attribute lookup on a `DaemonApplication` instance: the subclass methods
plus the inherited `Application` attributes. -/
def daemonSelfLookup (n : String) : Except PyError Unit :=
  if daemonApplicationMethods.contains n || applicationClassMethods.contains n
  then Except.ok ()
  else Except.error (PyError.attributeError n)

/-- Observable outcome of one `DaemonApplication.start` call. -/
structure StartResult where
  exit : Option Int
  forkAttempted : Bool
  procChecked : Bool
  alreadyRunningReported : Bool
  raised : Option PyError
deriving Repr, DecidableEq

/-- The continuation of `start` past the refusal guard: `_daemonize()` (a
no-op on Windows, otherwise the double fork runs, and the surviving process
continues here), then `self.execute(*args)` — an attribute lookup of
`execute` on the instance; the inherited method is spelled `excecute`, so
the lookup raises `AttributeError` before any business logic can run. -/
def startDaemonPath (isWindows : Bool) : StartResult :=
  match daemonSelfLookup "execute" with
  | Except.error e => ⟨none, !isWindows, false, false, some e⟩
  | Except.ok _ => ⟨none, !isWindows, false, false, none⟩

/-- `DaemonApplication.start`: reads the PID file via `get_pid` (whose
`ValueError` on corrupt content would propagate); a truthy PID means the
daemon is taken to be already running — a message is written to stderr and
`sys.exit(1)` is raised, with no fork and no look at `/proc`. -/
def start (lock : Option String) (isWindows : Bool) : StartResult :=
  match get_pid lock with
  | Except.error e => ⟨none, false, false, false, some e⟩
  | Except.ok (some p) =>
    if p ≠ 0 then ⟨some 1, false, false, true, none⟩
    else startDaemonPath isWindows
  | Except.ok none => startDaemonPath isWindows

example : start (some "42\n") false = ⟨some 1, false, false, true, none⟩ := rfl

/-- `DaemonApplication.is_running`: reads the PID and, unlike `start` and
`stop`, verifies liveness through `/proc/<pid>` (`procExists`). -/
def is_running (lock : Option String) (procExists : Int → Bool) :
    Except PyError Bool :=
  match get_pid lock with
  | Except.error e => Except.error e
  | Except.ok none => Except.ok false
  | Except.ok (some p) => Except.ok (procExists p)

/-- One OS-level effect of the `stop` retry loop: an `os.kill` attempt with
`SIGTERM` or `SIGHUP` targeted at `pid`, or the `time.sleep(0.1)` between
them. -/
inductive StopEvent where
  | killTerm (pid : Int)
  | sleep100
  | killHup (pid : Int)
deriving Repr, DecidableEq

/-- Observable outcome of one `DaemonApplication.stop` call. -/
structure StopResult where
  events : List StopEvent
  exit : Option Int
  delete_pid_called : Bool
  lockAfter : Option String
  raised : Option PyError
  fuelExhausted : Bool
  notRunningReported : Bool
deriving Repr, DecidableEq

/-- The `except OSError` handler of the `stop` kill loop: `ESRCH` means the
target exited, so `delete_pid` runs; any other errno is printed and
`sys.exit(1)` is raised. -/
def stopKillFail (own : Int) (lock : Option String) (evs : List StopEvent)
    (e : Int) : StopResult :=
  if e = ESRCH then
    match delete_pid lock own none with
    | Except.ok l2 => ⟨evs, none, true, l2, none, false, false⟩
    | Except.error er => ⟨evs, none, true, lock, some er, false, false⟩
  else ⟨evs, some 1, false, lock, none, false, false⟩

/-- The `while 1` retry loop of `DaemonApplication.stop`, run for at most
`fuel` iterations (the source loop is unbounded; exhausting the fuel marks
the result instead).  `i` is the source loop counter, `k` indexes the
`os.kill` calls made so far and `killErr k` injects the errno with which the
`k`-th call fails (`none` = delivered).  Each iteration: `os.kill(pid,
SIGTERM)`; `time.sleep(0.1)`; `i += 1`; if `i % 10 == 0`, additionally
`os.kill(pid, SIGHUP)`. -/
def stopKillLoop (pid own : Int) (lock : Option String)
    (killErr : Nat → Option Int) : Nat → Nat → Nat → StopResult
  | 0, _, _ => ⟨[], none, false, lock, none, true, false⟩
  | fuel + 1, i, k =>
    match killErr k with
    | some e => stopKillFail own lock [StopEvent.killTerm pid] e
    | none =>
      if (i + 1) % 10 = 0 then
        match killErr (k + 1) with
        | some e =>
          stopKillFail own lock
            [StopEvent.killTerm pid, StopEvent.sleep100, StopEvent.killHup pid] e
        | none =>
          let r := stopKillLoop pid own lock killErr fuel (i + 1) (k + 2)
          { r with events := StopEvent.killTerm pid :: StopEvent.sleep100 ::
              StopEvent.killHup pid :: r.events }
      else
        let r := stopKillLoop pid own lock killErr fuel (i + 1) (k + 1)
        { r with events := StopEvent.killTerm pid :: StopEvent.sleep100 ::
            r.events }

/-- `DaemonApplication.stop`: reads the PID file; a falsy PID (file absent —
or content `0`) writes "The daemon is not running?" to stderr and raises
`sys.exit(1)`; the `delete_pid` self-heal and `return` that follow in the
source are unreachable because `sys.exit` raises first.  A truthy PID enters
the kill loop. -/
def stop (own : Int) (lock : Option String) (killErr : Nat → Option Int)
    (fuel : Nat) : StopResult :=
  match get_pid lock with
  | Except.error e => ⟨[], none, false, lock, some e, false, false⟩
  | Except.ok none => ⟨[], some 1, false, lock, none, false, true⟩
  | Except.ok (some p) =>
    if p ≠ 0 then stopKillLoop p own lock killErr fuel 0 0
    else ⟨[], some 1, false, lock, none, false, true⟩

example : stop 7 none (fun _ => none) 5
    = ⟨[], some 1, false, none, none, false, true⟩ := rfl
example : stop 7 (some "42") (fun _ => some ESRCH) 5
    = ⟨[StopEvent.killTerm 42], none, true, some "42", none, false, false⟩ := rfl
example : (stop 7 (some "42") (fun _ => none) 3).events
    = [StopEvent.killTerm 42, StopEvent.sleep100,
       StopEvent.killTerm 42, StopEvent.sleep100,
       StopEvent.killTerm 42, StopEvent.sleep100] := rfl

/-! ## `applicationaccessservice.py`: DefaultApplicationAccessService -/

/-- `DefaultApplicationAccessService`: holds the `_application` attribute;
`Option α` models a Python reference that may be `None`. -/
structure DefaultApplicationAccessService (α : Type) where
  _application : Option α

/-- `DefaultApplicationAccessService.__init__`: sets `_application = None`. -/
def appAccessInit (α : Type) : DefaultApplicationAccessService α := ⟨none⟩

/-- `DefaultApplicationAccessService.set_application`. -/
def set_application (s : DefaultApplicationAccessService α)
    (application : Option α) : DefaultApplicationAccessService α :=
  { s with _application := application }

/-- `DefaultApplicationAccessService.get_application`. -/
def get_application (s : DefaultApplicationAccessService α) : Option α :=
  s._application

/-! ## Theorems for the claims -/

/-- C1: the claim says any failure raised by `beforeMainLoop`, `mainLoop` or
`afterMainLoop` is intercepted exactly once by `run()` (`excecute`), that
`onUncaughtException` is invoked exactly once with it, that it is reported
to the telemetry sink, that `666` is returned, and that no exception ever
propagates past `run()`.  On the code as written this fails before any hook
runs: `excecute` evaluates the module-level name `ConfigurationService`,
which no import of `application.py` binds, so every call raises
`NameError`, invokes `on_uncaught_exception` zero times, reports nothing to
the telemetry sink, returns nothing, and lets the `NameError` propagate. -/
theorem claim_C1_code_bug_eval (bl : BLBehavior) (cp : Bool)
    (lr : Option PyError) :
    excecute bl cp lr
      = ⟨0, 0, 0, [], [], none,
         some (PyError.nameError "ConfigurationService")⟩ := rfl

/-- The containment the spec describes does hold of the `try` block itself:
whichever of the three lifecycle hooks raises first, and whatever error it
raises, the handler runs exactly once, passes exactly that error to
`on_uncaught_exception` and to the telemetry sink, and the block yields
`666` without propagating — provided `on_uncaught_exception` itself returns
normally.  (The block is unreachable behind the `NameError` of C1.) -/
theorem execTryBlock_contains (bl : BLBehavior) (e : PyError)
    (hq : ∀ x, bl.on_uncaught_exception x = Except.ok ())
    (hr : bl.before_main_loop = Except.error e ∨
          (bl.before_main_loop = Except.ok () ∧ bl.main_loop = Except.error e) ∨
          (bl.before_main_loop = Except.ok () ∧
            (∃ r, bl.main_loop = Except.ok r) ∧
            bl.after_main_loop = Except.error e)) :
    (execTryBlock bl).uncaughtCalls = [e] ∧
    (execTryBlock bl).sentryCalls = [e] ∧
    (execTryBlock bl).result = some ApplicationReturnCodes.UNCAUGHT_EXCEPTION ∧
    (execTryBlock bl).raised = none := by
  rcases hr with h1 | ⟨h1, h2⟩ | ⟨h1, ⟨r, h2⟩, h3⟩
  · simp [execTryBlock, execCatch, h1, hq]
  · simp [execTryBlock, execCatch, h1, h2, hq]
  · simp [execTryBlock, execCatch, h1, h2, h3, hq]

/-- C2: the claim says a runtime constructed with a valid business logic,
all required-flags false and the application-handle registry present is
constructed without error, and `run()` returns `200` when `mainLoop`
returns `Success`.  On the code as written construction always raises:
`__init__` calls `self._validate_service_directory`, but the class defines
the method only as `_validate_service_diretory` (same for
`_validate_config_directory` vs `_validate_config_diretory`), so an
`AttributeError` is raised inside the `try`, and the handler clause
`except InvalidInputError` then itself raises `NameError` because
`InvalidInputError` is never imported.  No `Application` is ever
constructed, so `run()` can never be reached. -/
theorem claim_C2_code_bug_eval (sd sp cd dd : String) :
    Application.init true sd sp cd dd false false false true true true true
        none true
      = ⟨some (PyError.nameError "InvalidInputError"), false, false⟩ := rfl

/-- C3, as stated, is false: an existing lock file whose content is empty
or non-numeric makes `get_pid` raise `ValueError` (the source catches only
`IOError` and `SystemExit`), rather than return absent. -/
theorem claim_C3_counterexample :
    get_pid (some "") = Except.error PyError.valueError ∧
    get_pid (some "not a pid") = Except.error PyError.valueError := ⟨rfl, rfl⟩

/-- C3 amended: `get_pid` returns absent without error only when the lock
file is missing (the `IOError` from `open` is caught); when the file exists,
content parsing as an integer is returned, and empty or non-numeric content
raises `ValueError`, which propagates — corruption is NOT treated
identically to absence. -/
theorem claim_C3_amended :
    get_pid none = Except.ok none ∧
    (∀ s n, pyInt (pyStrip s) = some n →
      get_pid (some s) = Except.ok (some n)) ∧
    (∀ s, pyInt (pyStrip s) = none →
      get_pid (some s) = Except.error PyError.valueError) := by
  refine ⟨rfl, ?_, ?_⟩
  · intro s n h; simp [get_pid, h]
  · intro s h; simp [get_pid, h]

/-- Witness for C3 amended at concrete lock-file contents. -/
theorem claim_C3_witness :
    get_pid (some "17\n") = Except.ok (some 17) ∧
    get_pid (some "xyz") = Except.error PyError.valueError :=
  ⟨claim_C3_amended.2.1 "17\n" 17 rfl, claim_C3_amended.2.2 "xyz" rfl⟩

/-- C4, as stated, is false in its final clause: `delete_pid` can also fail
loudly when no deletion failed at all — an existing lock file whose content
does not parse as an integer makes the `int` call raise `ValueError`, which
the `except OSError` clause does not catch, even though `os.remove` was
never attempted. -/
theorem claim_C4_counterexample :
    delete_pid (some "garbage") 7 none = Except.error PyError.valueError := rfl

/-- C4 amended: `delete_pid` removes the lock file only when the recorded
PID equals the calling process PID; any other recorded PID is a silent
no-op that leaves the file untouched; an absent file is a silent no-op; and
it fails loudly exactly when the content does not parse as an integer
(`ValueError`) or when deletion fails for a reason other than the file
already being gone (`ENOENT` is passed over). -/
theorem claim_C4_amended :
    (∀ s p own re, pyInt (pyStrip s) = some p → p ≠ own →
      delete_pid (some s) own re = Except.ok (some s)) ∧
    (∀ s p, pyInt (pyStrip s) = some p →
      delete_pid (some s) p none = Except.ok none) ∧
    (∀ own re, delete_pid none own re = Except.ok none) ∧
    (∀ s own re, pyInt (pyStrip s) = none →
      delete_pid (some s) own re = Except.error PyError.valueError) ∧
    (∀ s p e, pyInt (pyStrip s) = some p → e ≠ ENOENT →
      delete_pid (some s) p (some e) = Except.error (PyError.osError e)) ∧
    (∀ s p, pyInt (pyStrip s) = some p →
      delete_pid (some s) p (some ENOENT) = Except.ok none) := by
  refine ⟨?_, ?_, ?_, ?_, ?_, ?_⟩
  · intro s p own re h hne; simp [delete_pid, h, hne]
  · intro s p h; simp [delete_pid, h]
  · intro own re; rfl
  · intro s own re h; simp [delete_pid, h]
  · intro s p e h hne; simp [delete_pid, h, hne]
  · intro s p h; simp [delete_pid, h, ENOENT]

/-- Witness for C4 amended: a lock recorded for PID 42 survives a clear by
process 7 untouched, and is removed by a clear from process 42 itself. -/
theorem claim_C4_witness :
    delete_pid (some "42\n") 7 none = Except.ok (some "42\n") ∧
    delete_pid (some "42\n") 42 none = Except.ok none :=
  ⟨claim_C4_amended.1 "42\n" 42 7 none rfl (by decide),
   claim_C4_amended.2.1 "42\n" 42 rfl⟩

/-- C5: for every existing lock file whose content reads as a (positive)
PID, `start` writes the already-running report, raises `sys.exit(1)`
(`GenericFailure`), attempts no fork, consults `/proc` for no liveness
check, and propagates no other exception. -/
theorem claim_C5 (s : String) (p : Int) (w : Bool)
    (hparse : pyInt (pyStrip s) = some p) (hpos : 0 < p) :
    start (some s) w = ⟨some 1, false, false, true, none⟩ := by
  have hp : p ≠ 0 := by omega
  simp [start, get_pid, hparse, hp]

/-- Witness for C5 at a concrete lock file holding PID 42. -/
theorem claim_C5_witness :
    pyInt (pyStrip "42\n") = some 42 ∧ (0 : Int) < 42 ∧
    start (some "42\n") false = ⟨some 1, false, false, true, none⟩ :=
  ⟨rfl, by decide, claim_C5 "42\n" 42 false rfl (by decide)⟩

/-- C6: the claim says that on an absent lock file `stop` reports not
running and exits with `GenericFailure` after a best-effort
`delete_pid` self-heal.  The code does report not running and raise
`sys.exit(1)` without sending any signal, but the self-heal never happens:
`sys.exit(1)` raises `SystemExit` immediately, so the `delete_pid()` call
that follows it in the source is unreachable (`delete_pid_called = false`
below). -/
theorem claim_C6_code_bug_eval :
    stop 7 none (fun _ => none) 100
      = ⟨[], some 1, false, none, none, false, true⟩ := rfl

/-- C9: the claim says each `handle_sig*` forwards to the matching
`BusinessLogic` hook (and for TERM/INT then marks the controller not-alive
and exits 0).  On the code as written none of the five ever reaches its
hook: the handlers call `self._business_logic.handle_sig*`, but the
`BusinessLogic` interface defines the hooks as `on_sigterm`, `on_sigint`,
`on_sigalrm`, `on_sigusr1`, `on_sigusr2`, so every handler raises
`AttributeError`, no hook runs, the alive flag is unchanged and no
`sys.exit(0)` happens. -/
theorem claim_C9_code_bug_eval :
    handle_sigterm true
      = ⟨none, true, none, some (PyError.attributeError "handle_sigterm")⟩ ∧
    handle_sigint true
      = ⟨none, true, none, some (PyError.attributeError "handle_sigint")⟩ ∧
    handle_sigalrm true
      = ⟨none, true, none, some (PyError.attributeError "handle_sigalrm")⟩ ∧
    handle_sigusr1 true
      = ⟨none, true, none, some (PyError.attributeError "handle_sigusr1")⟩ ∧
    handle_sigusr2 true
      = ⟨none, true, none, some (PyError.attributeError "handle_sigusr2")⟩ :=
  ⟨rfl, rfl, rfl, rfl, rfl⟩

/-- C10: `get_application` on a freshly constructed
`DefaultApplicationAccessService` returns `None`, and after any sequence of
`set_application` calls it returns the argument of the most recent call
(last writer wins). -/
theorem claim_C10 :
    (∀ (α : Type), get_application (appAccessInit α) = none) ∧
    (∀ (α : Type) (l : List (Option α)) (a : Option α),
      get_application
        (List.foldl set_application (appAccessInit α) (l ++ [a])) = a) := by
  refine ⟨fun α => rfl, fun α l a => ?_⟩
  rw [List.foldl_append]
  rfl

/-- One iteration of the `stop` retry loop as the claim describes it:
iteration number `m` (1-based) attempts a `TERM` delivery, sleeps 100 ms,
and attempts a `HUP` delivery exactly when `m` is a multiple of 10. -/
def iterEvents (p : Int) (m : Nat) : List StopEvent :=
  [StopEvent.killTerm p, StopEvent.sleep100] ++
    (if m % 10 = 0 then [StopEvent.killHup p] else [])

/-- The kill loop with every delivery succeeding emits, for each iteration
number `i + j + 1`, exactly the events `iterEvents` prescribes. -/
theorem stopKillLoop_allOk_events (p own : Int) (lock : Option String) :
    ∀ (fuel i k : Nat),
      (stopKillLoop p own lock (fun _ => none) fuel i k).events
        = ((List.range fuel).map (fun j => iterEvents p (i + j + 1))).flatten := by
  intro fuel
  induction fuel with
  | zero => intro i k; simp [stopKillLoop]
  | succ m ih =>
    intro i k
    have hmap : List.map ((fun j => iterEvents p (i + j + 1)) ∘ Nat.succ)
          (List.range m)
        = List.map (fun j => iterEvents p (i + 1 + j + 1)) (List.range m) :=
      List.map_congr_left (fun j _ => congrArg (iterEvents p) (by omega))
    rw [List.range_succ_eq_map, List.map_cons, List.map_map,
      List.flatten_cons, hmap]
    by_cases h : (i + 1) % 10 = 0
    · simp only [stopKillLoop, h, if_true]
      simp [ih (i + 1) (k + 2), iterEvents, h]
    · simp only [stopKillLoop, h, if_false]
      simp [ih (i + 1) (k + 1), iterEvents, h]

/-- C7: for a lock file recording PID `p`, while every delivery succeeds the
`stop` retry loop emits per iteration number `j + 1` exactly: one `TERM`
delivery to `p` (so a `TERM` on every iteration, the first included),
one 100 ms sleep separating it from what follows, and one `HUP` delivery
exactly when `j + 1` is a multiple of 10 (after the 10th, 20th, ... TERM). -/
theorem claim_C7 (s : String) (p own : Int) (fuel : Nat)
    (hparse : pyInt (pyStrip s) = some p) (hp : p ≠ 0) :
    (stop own (some s) (fun _ => none) fuel).events
      = ((List.range fuel).map (fun j => iterEvents p (j + 1))).flatten := by
  have h1 : get_pid (some s) = Except.ok (some p) := by simp [get_pid, hparse]
  simp only [stop, h1, hp, if_true, ne_eq, not_false_iff]
  have h2 := stopKillLoop_allOk_events p own (some s) fuel 0 0
  simpa using h2

/-- Witness for C7: twelve all-delivered iterations against PID 42,
exercising the `HUP` escalation of the 10th iteration. -/
theorem claim_C7_witness :
    pyInt (pyStrip "42") = some 42 ∧ ((42 : Int) ≠ 0) ∧
    (stop 7 (some "42") (fun _ => none) 12).events
      = ((List.range 12).map (fun j => iterEvents 42 (j + 1))).flatten :=
  ⟨rfl, by decide, claim_C7 "42" 42 7 12 rfl (by decide)⟩

/-- C8, as stated, is false in its clearing clause: when the first `TERM`
delivery fails with `ESRCH`, `stop` does call `delete_pid`, but `delete_pid`
only removes the file whose recorded PID equals the calling process own PID
— and the file records the daemon PID (42), not the stopping controller PID
(7).  The stop completes normally (no exit, nothing raised), yet the lock
file still exists afterwards. -/
theorem claim_C8_counterexample :
    stop 7 (some "42") (fun _ => some ESRCH) 5
      = ⟨[StopEvent.killTerm 42], none, true, some "42", none, false,
         false⟩ := rfl

/-- C8 amended: when a delivery in the retry loop fails, `ESRCH` leads to a
`delete_pid` call, which removes the lock file only if the recorded PID
equals the stopping process own PID and otherwise leaves it in place (the
stop still completes without error); any other errno is fatal — reported,
no `delete_pid`, `sys.exit(1)` (`GenericFailure`). -/
theorem claim_C8_amended (s : String) (p own e : Int) (fuel : Nat)
    (hparse : pyInt (pyStrip s) = some p) (hp : p ≠ 0) (hf : 0 < fuel) :
    stop own (some s) (fun _ => some e) fuel
      = if e = ESRCH then
          ⟨[StopEvent.killTerm p], none, true,
           if p = own then none else some s, none, false, false⟩
        else
          ⟨[StopEvent.killTerm p], some 1, false, some s, none, false,
           false⟩ := by
  have h1 : get_pid (some s) = Except.ok (some p) := by simp [get_pid, hparse]
  cases fuel with
  | zero => omega
  | succ m =>
    have h2 : delete_pid (some s) own none
        = if p = own then Except.ok none else Except.ok (some s) := by
      by_cases hpo : p = own
      · simp [delete_pid, hparse, hpo]
      · simp [delete_pid, hparse, hpo]
    simp only [stop, h1, hp, if_true, ne_eq, not_false_iff, stopKillLoop,
      stopKillFail, h2]
    by_cases he : e = ESRCH
    · by_cases hpo : p = own
      · simp [he, hpo]
      · simp [he, hpo]
    · simp [he]

/-- Witness for C8 amended: daemon PID 42, controller PID 7, first delivery
failing with `ESRCH`; the clear is attempted and the lock survives. -/
theorem claim_C8_witness :
    pyInt (pyStrip "43") = some 43 ∧ ((43 : Int) ≠ 0) ∧ (0 < 6) ∧
    stop 7 (some "43") (fun _ => some 3) 6
      = if (3 : Int) = ESRCH then
          ⟨[StopEvent.killTerm 43], none, true,
           if (43 : Int) = 7 then none else some "43", none, false, false⟩
        else
          ⟨[StopEvent.killTerm 43], some 1, false, some "43", none, false,
           false⟩ :=
  ⟨rfl, by decide, by decide,
   claim_C8_amended "43" 43 7 3 6 rfl (by decide) (by decide)⟩
